import Mathlib

/-!
Verification of the releng build-environment resolver.

This file gives a shallow embedding of `releng/environment.py` (the
toolchain/CMake resolver) and `releng/executor.py` (the side-effect
abstraction), and proves or refutes the frozen claims about them.

External collaborators of the resolver (the `commandrunner`, `slaves` and
`cmake` modules, and the filesystem probes of the `os` module) are not part
of the source tree; their observable answers during one resolver run are
collected in a `World` record, and the few operations whose semantics the
resolver relies on (environment-variable set/append/prepend) are modelled
from the spec, as marked on each definition.
-/

namespace Releng

/-! ## String and list helpers (embedding Python primitives) -/

/-- Boolean test that `l` begins with `p` (used to embed `str.startswith`
and path-containment checks on component lists). -/
def listBeginsWith [BEq α] : List α → List α → Bool
  | _, [] => true
  | [], _ :: _ => false
  | a :: as, b :: bs => a == b && listBeginsWith as bs

/-- Embeds Python `str.split(sep)` for a single-character separator, on the
character list of a string.  `''.split('.') == ['']` and
`'.'.split('.') == ['', '']`, as in Python. -/
def splitChars (sep : Char) : List Char → List (List Char)
  | [] => [[]]
  | c :: cs =>
    let r := splitChars sep cs
    if c == sep then [] :: r
    else
      match r with
      | [] => [[c]]
      | g :: gs => (c :: g) :: gs

/-- Strips whitespace from both ends of a character list (Python `int`
ignores surrounding whitespace). -/
def trimChars (cs : List Char) : List Char :=
  ((cs.dropWhile Char.isWhitespace).reverse.dropWhile Char.isWhitespace).reverse

/-- Embeds Python `int(s)` on a component of a version string: optional
surrounding whitespace, optional sign, then a nonempty run of decimal
digits.  (PEP 515 underscore grouping and non-ASCII digits are not
modelled; version components never use them.) -/
def pyIntOfChars (cs : List Char) : Option Int :=
  let t := trimChars cs
  let core : Int × List Char :=
    match t with
    | '-' :: rest => (-1, rest)
    | '+' :: rest => (1, rest)
    | _ => (1, t)
  if core.2.isEmpty then none
  else if core.2.all Char.isDigit then
    some (core.1 * (core.2.foldl (fun acc c => acc * 10 + (c.toNat - 48)) (0 : Nat) : Nat))
  else none

/-- Embeds `os.path.join(a, b)` for POSIX paths (the resolver's path
arithmetic in the claims is on POSIX nodes). -/
def pathJoin (a b : String) : String :=
  if listBeginsWith b.data ['/'] then b
  else if a = "" then b
  else if a.data.getLast? = some '/' then a ++ b
  else a ++ "/" ++ b

/-- Embeds `os.path.dirname(p)`: everything before the final slash. -/
def dirname (p : String) : String :=
  String.intercalate "/" ((p.splitOn "/").dropLast)

/-- Embeds `os.path.expanduser(p)` given the home directory of the node. -/
def expanduser (home p : String) : String :=
  if listBeginsWith p.data ['~', '/'] then home ++ p.drop 1 else p

/-- Embeds assignment `d[k] = v` on a Python dict kept as an association
list in insertion order: an existing key keeps its position and gets the
new value, a new key is appended. -/
def dictInsert : List (String × String) → String → String → List (String × String)
  | [], k, v => [(k, v)]
  | (k', v') :: rest, k, v =>
    if k' = k then (k, v) :: rest else (k', v') :: dictInsert rest k v

/-- Lookup in an association-list dict. -/
def envGet : List (String × String) → String → Option String
  | [], _ => none
  | (k', v') :: rest, k => if k' = k then some v' else envGet rest k

/-- Python truthiness of an optional string (`None` and `''` are falsy). -/
def optStrTruthy : Option String → Bool
  | none => false
  | some s => if s = "" then false else true

/-- Normalizes an optional string to `none` when Python would treat it as
falsy, so that `if name:` translates to a match on `pyStr? name`. -/
def pyStr? : Option String → Option String
  | none => none
  | some s => if s = "" then none else some s

/-! ## Version parsing and comparison (`_to_version_tuple`, `_is_older_version`) -/

/-- Errors surfaced by the embedded Python code.  `malformedVersion` stands
for the `ValueError` that `int` raises on a non-numeric component (the
spec's `MalformedVersion`); `lookupError` stands for a failed
`find_executable` resolution; the filesystem errors embed the `OSError`
subclasses raised by `os.makedirs` and `shutil.rmtree`. -/
inductive PyErr
  | configurationError (msg : String)
  | malformedVersion (component : String)
  | lookupError (name : String)
  | typeError
  | fileExistsError
  | notADirectoryError
  deriving Repr, DecidableEq

/-- Classifies an error as the `ConfigurationError` kind. -/
def PyErr.isConfigurationError : PyErr → Bool
  | .configurationError _ => true
  | _ => false

instance exceptDecEq {ε α : Type} [DecidableEq ε] [DecidableEq α] :
    DecidableEq (Except ε α) := fun x y =>
  match x, y with
  | .ok a, .ok b =>
    if h : a = b then .isTrue (by rw [h]) else .isFalse (fun hc => h (Except.ok.inj hc))
  | .error a, .error b =>
    if h : a = b then .isTrue (by rw [h]) else .isFalse (fun hc => h (Except.error.inj hc))
  | .ok _, .error _ => .isFalse (fun hc => Except.noConfusion hc)
  | .error _, .ok _ => .isFalse (fun hc => Except.noConfusion hc)

/-- Parses every dot-separated component with `int`, failing on the first
non-numeric component, as the list comprehension in `_to_version_tuple`
does. -/
def parseComponents : List (List Char) → Except PyErr (List Int)
  | [] => .ok []
  | c :: cs =>
    match pyIntOfChars c with
    | none => .error (.malformedVersion (String.mk c))
    | some n =>
      match parseComponents cs with
      | .error e => .error e
      | .ok ns => .ok (n :: ns)

/-- Embeds `_to_version_tuple`: `[int(x) for x in version_string.split('.')]`. -/
def to_version_tuple (s : String) : Except PyErr (List Int) :=
  parseComponents (splitChars '.' s.data)

/-- Embeds Python list comparison `<` on lists of integers: first unequal
pair decides, otherwise the shorter list is smaller. -/
def pyListLt : List Int → List Int → Bool
  | [], [] => false
  | [], _ :: _ => true
  | _ :: _, [] => false
  | a :: as, b :: bs => if a < b then true else if b < a then false else pyListLt as bs

/-- Embeds `_is_older_version(older, newer)`:
`_to_version_tuple(older) < _to_version_tuple(newer)`, with the left
operand parsed first (and the parse error propagating, as in Python). -/
def is_older_version (older newer : String) : Except PyErr Bool :=
  match to_version_tuple older with
  | .error e => .error e
  | .ok a =>
    match to_version_tuple newer with
    | .error e => .error e
    | .ok b => .ok (pyListLt a b)

/-! ## The data model of `BuildEnvironment` -/

/-- Operating system of the build node (`common.System`). -/
inductive System
  | windows
  | linux
  | osx
  deriving Repr, DecidableEq

/-- Compiler family (`common.Compiler`). -/
inductive Compiler
  | gcc
  | clang
  | intel
  | msvc
  deriving Repr, DecidableEq

/-- Observable answers of the world outside `environment.py` during one
resolver run: the `cmake` version query, the directory listing and file
probes under the CMake base directory, executable lookup through the
command runner, and the per-node data served by the `slaves` module. -/
structure World where
  cmakeVersionReport : String
  cmakeDirs : List String
  isFile : String → Bool
  pathExistsAt : String → Bool
  findExecutable : String → Option String
  defaultGccForLibstdcxx : Option String
  environmentSubshell : Option String
  defaultParallelism : Int
  home : String

/-- The mutable state of a `BuildEnvironment` object: its public
attributes, the private `_cmake_base_dir`/`_build_prefix_cmd`/`_build_jobs`
fields, the environment-variable map held by the command runner, and the
log of environment scripts sourced through `run_env_script`/`import_env`. -/
structure BuildEnv where
  system : Option System
  compiler : Option Compiler
  compilerVersion : Option String
  cCompiler : Option String
  cxxCompiler : Option String
  gcovCommand : Option String
  cmakeCommand : String
  ctestCommand : String
  cmakeVersion : Option String
  cmakeGenerator : Option String
  cudaRoot : Option String
  cudaHostCompiler : Option String
  amdappsdkRoot : Option String
  clangAnalyzerOutputDir : Option String
  extraCmakeOptions : List (String × String)
  buildPrefixCmd : Option (List String)
  cmakeBaseDir : Option String
  buildJobs : Int
  envVars : List (String × String)
  envScripts : List String
  deriving Repr

/-- Embeds `set_env_var` (the `value is None` convenience is in the
source's docstring); the actual store into the command runner's
environment map is modelled from the spec: CommandRunner.setVar replaces
the variable's value. -/
def BuildEnv.set_env_var (s : BuildEnv) (var : String) (value : Option String) : BuildEnv :=
  match value with
  | none => s
  | some v => { s with envVars := dictInsert s.envVars var v }

/-- Modelled from the spec: CommandRunner.appendToVar is not in src/; the
spec says flag appends accumulate and never overwrite prior flags, so an
absent variable is set to the value and a present one gets the value
appended after a single space. -/
def BuildEnv.append_to_env_var (s : BuildEnv) (var value : String) : BuildEnv :=
  match envGet s.envVars var with
  | none => { s with envVars := dictInsert s.envVars var value }
  | some old => { s with envVars := dictInsert s.envVars var (old ++ " " ++ value) }

/-- Modelled from the spec: CommandRunner.prependToVar is not in src/; it
prepends with the given separator (`os.pathsep`, i.e. `:` on the POSIX
nodes where `prepend_path_env` is reached). -/
def BuildEnv.prepend_to_env_var (s : BuildEnv) (var value sep : String) : BuildEnv :=
  match envGet s.envVars var with
  | none => { s with envVars := dictInsert s.envVars var value }
  | some old => { s with envVars := dictInsert s.envVars var (value ++ sep ++ old) }

/-- Embeds `prepend_path_env`. -/
def BuildEnv.prepend_path_env (w : World) (s : BuildEnv) (path : String) : BuildEnv :=
  s.prepend_to_env_var "PATH" (expanduser w.home path) ":"

/-- Embeds `run_env_script`: builds the environment-dump command and hands
it to the command runner's `import_env`.  Importing an external
environment snapshot is an opaque external effect; the dump command is
recorded in `envScripts`. -/
def BuildEnv.run_env_script (s : BuildEnv) (env_cmd : String) : BuildEnv :=
  { s with envScripts := s.envScripts ++ [env_cmd ++ " && " ++ s.cmakeCommand ++ " -E environment"] }

/-- Embeds `_init_system`. -/
def BuildEnv.init_system (w : World) (s : BuildEnv) : BuildEnv :=
  if s.system = some System.windows then
    { s with cmakeGenerator := some "NMake Makefiles JOM", cmakeBaseDir := some "c:\\utils" }
  else
    let s := s.prepend_path_env w "~/bin"
    let s :=
      if s.system = some System.osx then s.set_env_var "CMAKE_PREFIX_PATH" (some "/opt/local")
      else s
    -- _init_core_dump only adjusts the process resource limit, an external
    -- effect with no footprint in this state.
    { s with cmakeBaseDir := some "/opt/cmake" }

/-- Embeds `BuildEnvironment.__init__`: default attribute values, the
default build parallelism from `slaves`, the optional environment-subshell
import, and `_init_system` when the system is known. -/
def buildEnvironmentInit (w : World) (sys : Option System) : BuildEnv :=
  let s : BuildEnv :=
    { system := sys
      compiler := none
      compilerVersion := none
      cCompiler := none
      cxxCompiler := none
      gcovCommand := none
      cmakeCommand := "cmake"
      ctestCommand := "ctest"
      cmakeVersion := none
      cmakeGenerator := none
      cudaRoot := none
      cudaHostCompiler := none
      amdappsdkRoot := none
      clangAnalyzerOutputDir := none
      extraCmakeOptions := []
      buildPrefixCmd := none
      cmakeBaseDir := none
      buildJobs := w.defaultParallelism
      envVars := []
      envScripts := [] }
  let s :=
    match pyStr? w.environmentSubshell with
    | some env_cmd =>
        { s with envScripts := s.envScripts ++ [env_cmd ++ " -- " ++ s.cmakeCommand ++ " -E environment"] }
    | none => s
  if sys ≠ none then s.init_system w else s

/-! ## CMake version selection -/

/-- Embeds `_init_cmake`: switch `cmake_command`/`ctest_command` to the
binaries of the installation named by `version` and record the version.
`os.path.join(None, ...)` would raise, hence the error when the base
directory was never initialized. -/
def BuildEnv.init_cmake (w : World) (s : BuildEnv) (version : String) : BuildEnv × Option PyErr :=
  match s.cmakeBaseDir with
  | none => (s, some .typeError)
  | some base =>
    let bin0 := pathJoin (pathJoin base ("cmake-" ++ version)) "bin"
    let cmake_bin_dir := if !(w.pathExistsAt bin0) then pathJoin (pathJoin base version) "bin" else bin0
    ({ s with
        cmakeCommand := pathJoin cmake_bin_dir "cmake"
        ctestCommand := pathJoin cmake_bin_dir "ctest"
        cmakeVersion := some version }, none)

/-- Inserts a keyed element into a list sorted ascending by the Python
tuple order, after all elements with a key not greater than its own
(stable, as Python's sort is). -/
def insertKeyed (x : List Int × String) : List (List Int × String) → List (List Int × String)
  | [] => [x]
  | y :: ys => if pyListLt x.1 y.1 then x :: y :: ys else y :: insertKeyed x ys

/-- Stable insertion sort used to embed `versions.sort(key=_to_version_tuple)`. -/
def sortKeyed (l : List (List Int × String)) : List (List Int × String) :=
  l.foldl (fun acc x => insertKeyed x acc) []

/-- Computes the sort key of every version in list order, failing on the
first malformed one, as `list.sort(key=...)` does before sorting. -/
def computeKeys : List String → Except PyErr (List (List Int × String))
  | [] => .ok []
  | v :: vs =>
    match to_version_tuple v with
    | .error e => .error e
    | .ok t =>
      match computeKeys vs with
      | .error e => .error e
      | .ok rest => .ok ((t, v) :: rest)

/-- Embeds `list.sort(key=_to_version_tuple)`: all keys are computed first
(raising on a malformed version), then the strings are sorted ascending by
key. -/
def sortVersions (vs : List String) : Except PyErr (List String) :=
  match computeKeys vs with
  | .error e => .error e
  | .ok keyed => .ok ((sortKeyed keyed).map (fun kv => kv.2))

/-- Embeds `_get_available_cmake_versions`: list the CMake base directory,
keep the subdirectories holding a `cmake` (`cmake.exe` on Windows) binary,
take the trailing `-`-separated token of each name, and sort ascending by
version. -/
def BuildEnv.get_available_cmake_versions (w : World) (s : BuildEnv) : Except PyErr (List String) :=
  match s.cmakeBaseDir with
  | none => .error .typeError
  | some base =>
    let versions := w.cmakeDirs.filterMap (fun cmake_dir =>
      let cmd := pathJoin (pathJoin (pathJoin base cmake_dir) "bin") "cmake"
      let cmd :=
        if s.system = some System.windows ∧ !(listBeginsWith cmd.data.reverse (".exe".data.reverse)) then
          cmd ++ ".exe"
        else cmd
      if w.isFile cmd then
        some ((splitChars '-' cmake_dir.data).getLastD [] |> String.mk)
      else none)
    sortVersions versions

/-- One iteration of the activation loop in `_set_cmake_minimum_version`:
skip versions older than the request, activate the others. -/
def cmakeScanStep (w : World) (version : String) :
    BuildEnv × Option PyErr → String → BuildEnv × Option PyErr
  | (s, some e), _ => (s, some e)
  | (s, none), test_version =>
    match is_older_version test_version version with
    | .error e => (s, some e)
    | .ok true => (s, none)
    | .ok false => s.init_cmake w test_version

/-- Embeds `_set_cmake_minimum_version`: no-op when a version is already
recorded or none is requested; otherwise record the active binary's
version, and when it is older than the request, walk the available
versions in ascending order activating every one that is not older. -/
def BuildEnv.set_cmake_minimum_version (w : World) (s : BuildEnv) (version : String) :
    BuildEnv × Option PyErr :=
  if optStrTruthy s.cmakeVersion || version == "" then (s, none)
  else
    let current_version := w.cmakeVersionReport
    let s := { s with cmakeVersion := some current_version }
    match is_older_version current_version version with
    | .error e => (s, some e)
    | .ok false => (s, none)
    | .ok true =>
      match s.get_available_cmake_versions w with
      | .error e => (s, some e)
      | .ok available_versions =>
        available_versions.foldl (cmakeScanStep w version) (s, none)

/-! ## Compiler selection handlers -/

/-- Embeds `_manage_stdlib_from_gcc`.  The companion gcc is the selected C
compiler for GCC, the per-node default for Clang and Intel; when known, it
is resolved through the command runner (a failed lookup propagates, per
the spec, as a lookup error), the toolchain root is its bin directory's
parent, the optional standard-library flag is rendered and appended to
`CFLAGS`/`CXXFLAGS`, and the linker rpath/library-path variable is set. -/
def BuildEnv.manage_stdlib_from_gcc (w : World) (s : BuildEnv)
    (format_for_stdlib_flag : Option (String → String)) : BuildEnv × Option PyErr :=
  let gcc_name : Option String :=
    if s.compiler = some Compiler.gcc then s.cCompiler
    else if s.compiler = some Compiler.clang ∨ s.compiler = some Compiler.intel then
      w.defaultGccForLibstdcxx
    else none
  match pyStr? gcc_name with
  | none => (s, none)
  | some name =>
    match w.findExecutable name with
    | none => (s, some (.lookupError name))
    | some gcc_exe =>
      let gcc_toolchain_path := pathJoin (dirname gcc_exe) ".."
      let s :=
        match format_for_stdlib_flag with
        | some fmt =>
          let stdlibflag := fmt gcc_toolchain_path
          (s.append_to_env_var "CFLAGS" stdlibflag).append_to_env_var "CXXFLAGS" stdlibflag
        | none => s
      ({ s with
          extraCmakeOptions := dictInsert s.extraCmakeOptions "CMAKE_CXX_LINK_FLAGS"
            ("-Wl,-rpath," ++ gcc_toolchain_path ++ "/lib64 -L" ++ gcc_toolchain_path ++ "/lib64") },
        none)

/-- Embeds `_init_gcc`. -/
def BuildEnv.init_gcc (w : World) (s : BuildEnv) (version : String) : BuildEnv × Option PyErr :=
  let s := { s with
    compiler := some Compiler.gcc
    compilerVersion := some version
    cCompiler := some ("gcc-" ++ version)
    cxxCompiler := some ("g++-" ++ version)
    gcovCommand := some ("gcov-" ++ version) }
  s.manage_stdlib_from_gcc w none

/-- The tail of `_init_clang` after the standard-library alignment
(source lines 289-298): resolve the selected clang binary, set
`ASAN_SYMBOLIZER_PATH` beside it and point `LD_LIBRARY_PATH` at the
matching runtime libraries. -/
def BuildEnv.clang_symbolizer_tail (w : World) (s : BuildEnv) : BuildEnv × Option PyErr :=
  match s.cCompiler with
  | none => (s, some .typeError)
  | some c_compiler =>
    match w.findExecutable c_compiler with
    | none => (s, some (.lookupError c_compiler))
    | some clang_exe =>
      let clang_path := dirname clang_exe
      let symbolizer_path := pathJoin clang_path "llvm-symbolizer"
      let s := s.set_env_var "ASAN_SYMBOLIZER_PATH" (some symbolizer_path)
      let s := s.set_env_var "LD_LIBRARY_PATH" (some (pathJoin clang_path "../lib"))
      (s, none)

/-- Embeds `_init_clang`: select the clang executables, align the standard
library with the `--gcc-toolchain=` flag, then run the symbolizer tail. -/
def BuildEnv.init_clang (w : World) (s : BuildEnv) (version : String) : BuildEnv × Option PyErr :=
  let s := { s with
    compiler := some Compiler.clang
    compilerVersion := some version
    cCompiler := some ("clang-" ++ version)
    cxxCompiler := some ("clang++-" ++ version) }
  match s.manage_stdlib_from_gcc w (some (fun gcctoolchain => "--gcc-toolchain=" ++ gcctoolchain)) with
  | (s, some e) => (s, some e)
  | (s, none) => s.clang_symbolizer_tail w

/-- Boolean test for the regex `^(\d\d)$`. -/
def isTwoDigits (v : String) : Bool :=
  v.data.length == 2 && v.data.all Char.isDigit

/-- The tail shared by every successful non-Windows `_init_icc` branch
(source lines 337-344): standard-library alignment with the `-gcc-name=`
flag, then the compiler version is recorded, only at the very end of the
handler. -/
def BuildEnv.icc_linux_tail (w : World) (s : BuildEnv) (version : String) : BuildEnv × Option PyErr :=
  match s.manage_stdlib_from_gcc w
      (some (fun gcctoolchain => "-gcc-name=" ++ gcctoolchain ++ "/bin/gcc")) with
  | (s, some e) => (s, some e)
  | (s, none) => ({ s with compilerVersion := some version }, none)

/-- Embeds `_init_icc`.  On Windows an MSVC selection must already be
present; known versions source the vendor environment script; on
non-Windows the standard library is aligned with a `-gcc-name=` flag; the
compiler version is recorded only at the very end of the handler. -/
def BuildEnv.init_icc (w : World) (s : BuildEnv) (version : String) : BuildEnv × Option PyErr :=
  if s.system = some System.windows then
    if s.compiler ≠ some Compiler.msvc then
      (s, some (.configurationError "need to specify msvc version for icc on Windows"))
    else
      let s := { s with
        cCompiler := some "icl"
        cxxCompiler := some "icl"
        compiler := some Compiler.intel
        extraCmakeOptions := dictInsert s.extraCmakeOptions "CMAKE_EXE_LINKER_FLAGS" "\"/machine:x64\"" }
      match s.compilerVersion with
      | none => (s, some .typeError)
      | some msvc_version =>
        if version == "15.0" then
          let s := s.run_env_script
            ("\"C:\\Program Files (x86)\\Intel\\Composer XE 2015\\bin\\compilervars.bat\" intel64 vs"
              ++ msvc_version)
          ({ s with compilerVersion := some version }, none)
        else if version == "16.0" then
          let s := s.run_env_script
            ("\"C:\\Program Files (x86)\\IntelSWTools\\compilers_and_libraries_2016\\windows\\bin\\compilervars.bat\" intel64 vs"
              ++ msvc_version)
          ({ s with compilerVersion := some version }, none)
        else if isTwoDigits version then
          let s := s.run_env_script
            ("\"C:\\Program Files (x86)\\IntelSWTools\\compilers_and_libraries_20" ++ version
              ++ "\\windows\\bin\\compilervars.bat\" intel64 vs" ++ msvc_version)
          ({ s with compilerVersion := some version }, none)
        else
          (s, some (.configurationError
            ("invalid icc version: got icc-" ++ version
              ++ ". Try a version with two digits, e.g. 18 for 2018 release.")))
  else
    let s := { s with
      cCompiler := some "icc"
      cxxCompiler := some "icpc"
      compiler := some Compiler.intel }
    if isTwoDigits version then
      (s.run_env_script
        (". /opt/intel/compilers_and_libraries_20" ++ version
          ++ "/linux/bin/compilervars.sh intel64")).icc_linux_tail w version
    else if version == "16.0" then
      (s.run_env_script ". /opt/intel/compilers_and_libraries_2016/linux/bin/compilervars.sh intel64").icc_linux_tail w version
    else if version == "15.0" then
      (s.run_env_script ". /opt/intel/composer_xe_2015/bin/compilervars.sh intel64").icc_linux_tail w version
    else if version == "14.0" then
      (s.run_env_script ". /opt/intel/composer_xe_2013_sp1/bin/compilervars.sh intel64").icc_linux_tail w version
    else if version == "13.0" then
      (s.run_env_script ". /opt/intel/composer_xe_2013/bin/compilervars.sh intel64").icc_linux_tail w version
    else if version == "12.1" then
      (s.run_env_script ". /opt/intel/composer_xe_2011_sp1/bin/compilervars.sh intel64").icc_linux_tail w version
    else
      (s, some (.configurationError
        ("invalid icc version: got icc-" ++ version
          ++ ". Try a version with two digits, e.g. 18 for 2018 release.")))

/-- Embeds `_init_msvc`: family and version are recorded first, then only
the 2010/2013/2015 versions source their vendor script; anything else
raises. -/
def BuildEnv.init_msvc (s : BuildEnv) (version : String) : BuildEnv × Option PyErr :=
  let s := { s with compiler := some Compiler.msvc, compilerVersion := some version }
  if version == "2010" then
    (s.run_env_script "\"C:\\Program Files (x86)\\Microsoft Visual Studio 10.0\\VC\\vcvarsall.bat\" amd64", none)
  else if version == "2013" then
    (s.run_env_script "\"C:\\Program Files (x86)\\Microsoft Visual Studio 12.0\\VC\\vcvarsall.bat\" amd64", none)
  else if version == "2015" then
    (s.run_env_script "\"C:\\Program Files (x86)\\Microsoft Visual Studio 14.0\\VC\\vcvarsall.bat\" amd64", none)
  else
    (s, some (.configurationError ("only Visual Studio 2010, 2013, and 2015 are supported, got msvc-" ++ version)))

/-! ## The executor (side-effect abstraction) -/

/-- A snapshot of the filesystem as a finite set of paths (component
lists), each marked as a directory (`true`) or a regular file (`false`). -/
structure FileSystem where
  entries : List (List String × Bool)
  deriving Repr

instance : DecidableEq FileSystem := fun a b =>
  match a, b with
  | ⟨ea⟩, ⟨eb⟩ =>
    if h : ea = eb then .isTrue (by rw [h]) else .isFalse (fun hc => h (congrArg FileSystem.entries hc))

/-- Embeds `os.path.exists`. -/
def FileSystem.pathExists (fs : FileSystem) (p : List String) : Bool :=
  fs.entries.any (fun e => e.1 == p)

/-- Embeds `os.path.isdir`. -/
def FileSystem.pathIsdir (fs : FileSystem) (p : List String) : Bool :=
  fs.entries.any (fun e => e.1 == p && e.2)

/-- Path containment: `q` is `p` itself or lies below it. -/
def underPath (p q : List String) : Bool :=
  listBeginsWith q p

/-- Embeds `shutil.rmtree(p)`: removes the directory and everything below
it; called on a non-directory it raises. -/
def FileSystem.rmtree (fs : FileSystem) (p : List String) : Except PyErr FileSystem :=
  if fs.pathIsdir p then .ok ⟨fs.entries.filter (fun e => !(underPath p e.1))⟩
  else .error .notADirectoryError

/-- The proper nonempty ancestors of a path, outermost first. -/
def ancestorDirs (p : List String) : List (List String) :=
  ((List.range p.length).map (fun n => p.take n)).filter (fun a => !(a.isEmpty))

/-- Embeds `os.makedirs(p)` (no `exist_ok`): raises when the path already
exists, raises when an existing ancestor is not a directory, and otherwise
creates the missing ancestors and the path itself as directories. -/
def FileSystem.makedirs (fs : FileSystem) (p : List String) : Except PyErr FileSystem :=
  if fs.pathExists p then .error .fileExistsError
  else if (ancestorDirs p).any (fun a => fs.pathExists a && !(fs.pathIsdir a)) then
    .error .notADirectoryError
  else
    .ok ⟨fs.entries ++ (((ancestorDirs p).filter (fun a => !(fs.pathExists a))) ++ [p]).map (fun a => (a, true))⟩

namespace Executor

/-- Embeds `Executor.ensure_dir_exists`: with `ensure_empty` an existing
path is removed wholesale before the directory is recreated; without it an
existing directory short-circuits and anything else goes to `makedirs`. -/
def ensure_dir_exists (fs : FileSystem) (path : List String) (ensure_empty : Bool) :
    Except PyErr FileSystem :=
  if ensure_empty then
    match (if fs.pathExists path then fs.rmtree path else .ok fs) with
    | .error e => .error e
    | .ok fs => fs.makedirs path
  else if fs.pathIsdir path then .ok fs
  else fs.makedirs path

end Executor

namespace DryRunExecutor

/-- Embeds `DryRunExecutor.ensure_dir_exists`, whose body is `pass`: the
filesystem is returned untouched. -/
def ensure_dir_exists (fs : FileSystem) (path : List String) (ensure_empty : Bool) : FileSystem :=
  fs

end DryRunExecutor

/-! ## Concrete worlds and states used by the closed theorems -/

/-- The value a variable holds after an append: the appended text alone
when the variable was unset, otherwise the old value with the text after
it (prior flags preserved). -/
def appendFlagValue : Option String → String → String
  | none, v => v
  | some old, v => old ++ " " ++ v

/-- A Linux node whose active cmake reports 3.5 and whose `/opt/cmake`
holds working 3.11 and 3.12 installations. -/
def w0 : World :=
  { cmakeVersionReport := "3.5"
    cmakeDirs := ["cmake-3.11", "cmake-3.12"]
    isFile := fun c => c == "/opt/cmake/cmake-3.11/bin/cmake" || c == "/opt/cmake/cmake-3.12/bin/cmake"
    pathExistsAt := fun d => d == "/opt/cmake/cmake-3.11/bin" || d == "/opt/cmake/cmake-3.12/bin"
    findExecutable := fun _ => none
    defaultGccForLibstdcxx := none
    environmentSubshell := none
    defaultParallelism := 4
    home := "/home/jenkins" }

/-- The freshly constructed configuration on the `w0` Linux node. -/
def s0 : BuildEnv := buildEnvironmentInit w0 (some System.linux)

/-- A Linux node with no companion gcc configured and no executables on
the search path. -/
def wNoCompanion : World :=
  { cmakeVersionReport := "3.5"
    cmakeDirs := []
    isFile := fun _ => false
    pathExistsAt := fun _ => false
    findExecutable := fun _ => none
    defaultGccForLibstdcxx := none
    environmentSubshell := none
    defaultParallelism := 4
    home := "/home/jenkins" }

/-- The freshly constructed configuration on the `wNoCompanion` node. -/
def sNoCompanion : BuildEnv := buildEnvironmentInit wNoCompanion (some System.linux)

/-- A Linux node carrying gcc-7 and clang-6.0 on the search path and no
companion gcc configured for clang. -/
def wGccClang : World :=
  { cmakeVersionReport := "3.5"
    cmakeDirs := []
    isFile := fun _ => false
    pathExistsAt := fun _ => false
    findExecutable := fun n =>
      if n == "gcc-7" then some "/usr/bin/gcc-7"
      else if n == "clang-6.0" then some "/usr/local/bin/clang-6.0"
      else none
    defaultGccForLibstdcxx := none
    environmentSubshell := none
    defaultParallelism := 4
    home := "/home/jenkins" }

/-- The freshly constructed configuration on the `wGccClang` node. -/
def sGccClang : BuildEnv := buildEnvironmentInit wGccClang (some System.linux)

/-- A Linux node with a companion gcc-8 configured for clang builds. -/
def wClangCompanion : World :=
  { cmakeVersionReport := "3.5"
    cmakeDirs := []
    isFile := fun _ => false
    pathExistsAt := fun _ => false
    findExecutable := fun n =>
      if n == "gcc-8" then some "/opt/gcc-8/bin/gcc-8"
      else if n == "clang-6.0" then some "/usr/local/bin/clang-6.0"
      else none
    defaultGccForLibstdcxx := some "gcc-8"
    environmentSubshell := none
    defaultParallelism := 4
    home := "/home/jenkins" }

/-- A configuration on the `wClangCompanion` node that already carries
compiler flags, to observe that later flags accumulate. -/
def sClangCompanion : BuildEnv :=
  ((buildEnvironmentInit wClangCompanion (some System.linux)).set_env_var
      "CFLAGS" (some "-O2")).set_env_var "CXXFLAGS" (some "-Wall")

/-- A filesystem with a directory `/opt`, a non-empty directory
`/opt/work` holding a file, and a stray file `/opt/notes`. -/
def fsSample : FileSystem :=
  ⟨[(["opt"], true), (["opt", "work"], true), (["opt", "work", "x.txt"], false),
    (["opt", "notes"], false)]⟩

/-! ## Properties of the version ordering -/

theorem pyListLt_irrefl : ∀ a : List Int, pyListLt a a = false
  | [] => rfl
  | a :: as => by simp [pyListLt, pyListLt_irrefl as]

theorem pyListLt_iff_lex : ∀ a b : List Int, pyListLt a b = true ↔ List.Lex (· < ·) a b
  | [], [] => by
    simp [pyListLt]
  | [], b :: bs => by
    simp only [pyListLt, true_iff]
    exact List.Lex.nil
  | a :: as, [] => by
    simp [pyListLt]
  | a :: as, b :: bs => by
    rcases lt_trichotomy a b with h | h | h
    · simp only [pyListLt, if_pos h, true_iff]
      exact List.Lex.rel h
    · subst h
      simp only [pyListLt, if_neg (lt_irrefl a)]
      rw [pyListLt_iff_lex as bs]
      exact (List.Lex.cons_iff (r := ((· < ·) : Int → Int → Prop))).symm
    · have h1 : ¬ a < b := not_lt_of_gt h
      simp only [pyListLt, if_neg h1, if_pos h]
      constructor
      · intro hfalse
        exact (Bool.false_ne_true hfalse).elim
      · intro hl
        cases hl with
        | cons h2 => exact (lt_irrefl a h).elim
        | rel h2 => exact (h1 h2).elim

theorem pyListLt_asymm : ∀ a b : List Int, pyListLt a b = true → pyListLt b a = false
  | [], [], h => by simp [pyListLt] at h
  | [], _ :: _, _ => by simp [pyListLt]
  | _ :: _, [], h => by simp [pyListLt] at h
  | a :: as, b :: bs, h => by
    rcases lt_trichotomy a b with h1 | h1 | h1
    · simp [pyListLt, not_lt_of_gt h1, h1]
    · subst h1
      simp only [pyListLt, if_neg (lt_irrefl a)] at h ⊢
      exact pyListLt_asymm as bs h
    · simp [pyListLt, if_neg (not_lt_of_gt h1), if_pos h1] at h

theorem pyListLt_trans : ∀ a b c : List Int,
    pyListLt a b = true → pyListLt b c = true → pyListLt a c = true
  | [], [], _, hab, _ => by simp [pyListLt] at hab
  | [], _ :: _, [], _, hbc => by simp [pyListLt] at hbc
  | [], _ :: _, _ :: _, _, _ => by simp [pyListLt]
  | _ :: _, [], _, hab, _ => by simp [pyListLt] at hab
  | _ :: _, _ :: _, [], _, hbc => by simp [pyListLt] at hbc
  | a :: as, b :: bs, c :: cs, hab, hbc => by
    rcases lt_trichotomy a b with h1 | h1 | h1
    · rcases lt_trichotomy b c with h2 | h2 | h2
      · simp [pyListLt, lt_trans h1 h2]
      · subst h2
        simp [pyListLt, h1]
      · simp [pyListLt, not_lt_of_gt h2, h2] at hbc
    · subst h1
      simp only [pyListLt, if_neg (lt_irrefl a)] at hab
      rcases lt_trichotomy a c with h2 | h2 | h2
      · simp [pyListLt, h2]
      · subst h2
        simp only [pyListLt, if_neg (lt_irrefl a)] at hbc ⊢
        exact pyListLt_trans as bs cs hab hbc
      · simp [pyListLt, not_lt_of_gt h2, h2] at hbc
    · simp [pyListLt, not_lt_of_gt h1, h1] at hab

theorem is_older_version_ok (a b : String) (ta tb : List Int)
    (ha : to_version_tuple a = .ok ta) (hb : to_version_tuple b = .ok tb) :
    is_older_version a b = .ok (pyListLt ta tb) := by
  unfold is_older_version
  rw [ha, hb]

theorem parse_ok_of_is_older_ok {a b : String} {r : Bool}
    (h : is_older_version a b = .ok r) :
    ∃ ta tb, to_version_tuple a = .ok ta ∧ to_version_tuple b = .ok tb ∧ pyListLt ta tb = r := by
  unfold is_older_version at h
  cases ha : to_version_tuple a with
  | error e => rw [ha] at h; exact absurd h (by simp)
  | ok ta =>
    cases hb : to_version_tuple b with
    | error e => rw [ha, hb] at h; exact absurd h (by simp)
    | ok tb =>
      rw [ha, hb] at h
      simp only [Except.ok.injEq] at h
      exact ⟨ta, tb, rfl, rfl, h⟩

theorem pyListLt_trichotomy : ∀ a b : List Int,
    pyListLt a b = true ∨ a = b ∨ pyListLt b a = true
  | [], [] => Or.inr (Or.inl rfl)
  | [], _ :: _ => Or.inl (by simp [pyListLt])
  | _ :: _, [] => Or.inr (Or.inr (by simp [pyListLt]))
  | a :: as, b :: bs => by
    rcases lt_trichotomy a b with h | h | h
    · exact Or.inl (by simp [pyListLt, h])
    · subst h
      rcases pyListLt_trichotomy as bs with h2 | h2 | h2
      · exact Or.inl (by simp [pyListLt, h2])
      · exact Or.inr (Or.inl (by rw [h2]))
      · exact Or.inr (Or.inr (by simp [pyListLt, h2]))
    · exact Or.inr (Or.inr (by simp [pyListLt, h, not_lt_of_gt h]))

theorem lex_append_of_ne_nil : ∀ (ta s : List Int), s ≠ [] → List.Lex (· < ·) ta (ta ++ s)
  | [], [], hs => absurd rfl hs
  | [], _ :: _, _ => List.Lex.nil
  | _ :: ta, s, hs => List.Lex.cons (lex_append_of_ne_nil ta s hs)

/-- C2: for version strings whose dot-separated components are all
numeric, `_is_older_version` is the lexicographic (Python tuple)
comparison of the parsed integer tuples: it agrees with `List.Lex` on the
parses, is irreflexive, asymmetric, transitive and trichotomous, makes a
proper prefix older than its extension, and decides the three quoted
examples as stated. -/
theorem c2_is_older_version_strict_lex_order :
    (∀ a b ta tb, to_version_tuple a = .ok ta → to_version_tuple b = .ok tb →
      (is_older_version a b = .ok true ↔ List.Lex (· < ·) ta tb))
    ∧ (∀ a ta, to_version_tuple a = .ok ta → is_older_version a a = .ok false)
    ∧ (∀ a b, is_older_version a b = .ok true → is_older_version b a = .ok false)
    ∧ (∀ a b c, is_older_version a b = .ok true → is_older_version b c = .ok true →
        is_older_version a c = .ok true)
    ∧ (∀ a b ta tb, to_version_tuple a = .ok ta → to_version_tuple b = .ok tb →
        is_older_version a b = .ok true ∨ ta = tb ∨ is_older_version b a = .ok true)
    ∧ (∀ a b ta ts, to_version_tuple a = .ok ta → to_version_tuple b = .ok (ta ++ ts) → ts ≠ [] →
        is_older_version a b = .ok true)
    ∧ is_older_version "4.9" "5.0" = .ok true
    ∧ is_older_version "5.0" "5.0" = .ok false
    ∧ is_older_version "5.0.1" "5.0" = .ok false := by
  refine ⟨?_, ?_, ?_, ?_, ?_, ?_, by decide, by decide, by decide⟩
  · intro a b ta tb ha hb
    rw [is_older_version_ok a b ta tb ha hb]
    simp only [Except.ok.injEq]
    exact pyListLt_iff_lex ta tb
  · intro a ta ha
    rw [is_older_version_ok a a ta ta ha ha, pyListLt_irrefl]
  · intro a b h
    obtain ⟨ta, tb, ha, hb, hlt⟩ := parse_ok_of_is_older_ok h
    rw [is_older_version_ok b a tb ta hb ha, pyListLt_asymm ta tb hlt]
  · intro a b c hab hbc
    obtain ⟨ta, tb, ha, hb, h1⟩ := parse_ok_of_is_older_ok hab
    obtain ⟨tb2, tc, hb2, hc, h2⟩ := parse_ok_of_is_older_ok hbc
    rw [hb] at hb2
    cases hb2
    rw [is_older_version_ok a c ta tc ha hc, pyListLt_trans ta tb tc h1 h2]
  · intro a b ta tb ha hb
    rw [is_older_version_ok a b ta tb ha hb, is_older_version_ok b a tb ta hb ha]
    rcases pyListLt_trichotomy ta tb with h | h | h
    · exact Or.inl (by rw [h])
    · exact Or.inr (Or.inl h)
    · exact Or.inr (Or.inr (by rw [h]))
  · intro a b ta ts ha hb hts
    rw [is_older_version_ok a b ta (ta ++ ts) ha hb]
    rw [(pyListLt_iff_lex ta (ta ++ ts)).mpr (lex_append_of_ne_nil ta ts hts)]

/-- Closed instance of C2's theorem: its hypotheses hold at `"4.9"` and
`"5.0"`, whose parses are `[4, 9]` and `[5, 0]`. -/
theorem c2_witness :
    is_older_version "4.9" "5.0" = .ok true ↔
      List.Lex (· < ·) ([4, 9] : List Int) ([5, 0] : List Int) :=
  c2_is_older_version_strict_lex_order.1 "4.9" "5.0" [4, 9] [5, 0] (by decide) (by decide)

/-! ## Environment-map lemmas -/

theorem envGet_dictInsert : ∀ (e : List (String × String)) (k v k2 : String),
    envGet (dictInsert e k v) k2 = if k = k2 then some v else envGet e k2
  | [], k, v, k2 => by
    simp only [dictInsert, envGet]
  | (k', v') :: rest, k, v, k2 => by
    by_cases h : k' = k
    · subst h
      simp only [dictInsert, if_pos rfl, envGet]
      by_cases h2 : k' = k2 <;> simp [h2]
    · simp only [dictInsert, if_neg h, envGet]
      by_cases h2 : k' = k2
      · subst h2
        rw [if_pos rfl, if_neg (fun hk => h hk.symm), if_pos rfl]
      · rw [if_neg h2, if_neg h2, envGet_dictInsert rest k v k2]

theorem append_to_env_var_envVars (s : BuildEnv) (var value : String) :
    (s.append_to_env_var var value).envVars =
      dictInsert s.envVars var (appendFlagValue (envGet s.envVars var) value) := by
  unfold BuildEnv.append_to_env_var
  cases h : envGet s.envVars var <;> simp [h, appendFlagValue]

/-- The environment operations, the script log, and `_init_cmake` leave
every compiler-identity field of the configuration unchanged. -/
theorem append_to_env_var_fields (s : BuildEnv) (var value : String) :
    (s.append_to_env_var var value).system = s.system
    ∧ (s.append_to_env_var var value).compiler = s.compiler
    ∧ (s.append_to_env_var var value).compilerVersion = s.compilerVersion
    ∧ (s.append_to_env_var var value).cCompiler = s.cCompiler
    ∧ (s.append_to_env_var var value).cxxCompiler = s.cxxCompiler
    ∧ (s.append_to_env_var var value).gcovCommand = s.gcovCommand
    ∧ (s.append_to_env_var var value).extraCmakeOptions = s.extraCmakeOptions := by
  unfold BuildEnv.append_to_env_var
  cases envGet s.envVars var <;> exact ⟨rfl, rfl, rfl, rfl, rfl, rfl, rfl⟩

theorem set_env_var_envVars (s : BuildEnv) (var value : String) :
    (s.set_env_var var (some value)).envVars = dictInsert s.envVars var value := rfl

theorem append_cCompiler (s : BuildEnv) (a b : String) :
    (s.append_to_env_var a b).cCompiler = s.cCompiler :=
  (append_to_env_var_fields s a b).2.2.2.1

theorem append_cxxCompiler (s : BuildEnv) (a b : String) :
    (s.append_to_env_var a b).cxxCompiler = s.cxxCompiler :=
  (append_to_env_var_fields s a b).2.2.2.2.1

theorem append_gcovCommand (s : BuildEnv) (a b : String) :
    (s.append_to_env_var a b).gcovCommand = s.gcovCommand :=
  (append_to_env_var_fields s a b).2.2.2.2.2.1

theorem append_compiler (s : BuildEnv) (a b : String) :
    (s.append_to_env_var a b).compiler = s.compiler :=
  (append_to_env_var_fields s a b).2.1

theorem append_compilerVersion (s : BuildEnv) (a b : String) :
    (s.append_to_env_var a b).compilerVersion = s.compilerVersion :=
  (append_to_env_var_fields s a b).2.2.1

theorem append_system (s : BuildEnv) (a b : String) :
    (s.append_to_env_var a b).system = s.system :=
  (append_to_env_var_fields s a b).1

/-- The standard-library alignment step never changes the compiler
identity fields or the environment-script log holder's system field; it
only touches the flag variables and the extra CMake options. -/
theorem manage_stdlib_fields (w : World) (s : BuildEnv) (fmt : Option (String → String)) :
    (s.manage_stdlib_from_gcc w fmt).1.system = s.system
    ∧ (s.manage_stdlib_from_gcc w fmt).1.compiler = s.compiler
    ∧ (s.manage_stdlib_from_gcc w fmt).1.compilerVersion = s.compilerVersion
    ∧ (s.manage_stdlib_from_gcc w fmt).1.cCompiler = s.cCompiler
    ∧ (s.manage_stdlib_from_gcc w fmt).1.cxxCompiler = s.cxxCompiler
    ∧ (s.manage_stdlib_from_gcc w fmt).1.gcovCommand = s.gcovCommand := by
  refine ⟨?_, ?_, ?_, ?_, ?_, ?_⟩ <;> simp only [BuildEnv.manage_stdlib_from_gcc] <;>
    (split <;> try rfl)
  all_goals (split <;> try rfl)
  all_goals (split <;> try rfl)
  all_goals
    simp [append_system, append_compiler, append_compilerVersion, append_cCompiler,
      append_cxxCompiler, append_gcovCommand]

/-- C7: selecting GCC 7 derives `gcc-7`, `g++-7` and `gcov-7`, leaves the
environment variables (in particular CFLAGS and CXXFLAGS) untouched
because no standard-library flag template is passed, and adds exactly the
linker rpath/library-path entry `CMAKE_CXX_LINK_FLAGS` to the extra CMake
options. -/
theorem c7_init_gcc_7 (w : World) (s : BuildEnv) (p : String)
    (hfind : w.findExecutable "gcc-7" = some p) :
    (s.init_gcc w "7").2 = none
    ∧ (s.init_gcc w "7").1.cCompiler = some "gcc-7"
    ∧ (s.init_gcc w "7").1.cxxCompiler = some "g++-7"
    ∧ (s.init_gcc w "7").1.gcovCommand = some "gcov-7"
    ∧ (s.init_gcc w "7").1.envVars = s.envVars
    ∧ (s.init_gcc w "7").1.extraCmakeOptions =
        dictInsert s.extraCmakeOptions "CMAKE_CXX_LINK_FLAGS"
          ("-Wl,-rpath," ++ pathJoin (dirname p) ".." ++ "/lib64 -L"
            ++ pathJoin (dirname p) ".." ++ "/lib64") := by
  unfold BuildEnv.init_gcc BuildEnv.manage_stdlib_from_gcc
  simp [pyStr?, hfind]

/-- Closed instance of C7's theorem on the `wGccClang` node, where
`gcc-7` resolves to `/usr/bin/gcc-7`. -/
theorem c7_witness :
    (sGccClang.init_gcc wGccClang "7").2 = none
    ∧ (sGccClang.init_gcc wGccClang "7").1.cCompiler = some "gcc-7"
    ∧ (sGccClang.init_gcc wGccClang "7").1.cxxCompiler = some "g++-7"
    ∧ (sGccClang.init_gcc wGccClang "7").1.gcovCommand = some "gcov-7"
    ∧ (sGccClang.init_gcc wGccClang "7").1.envVars = sGccClang.envVars
    ∧ (sGccClang.init_gcc wGccClang "7").1.extraCmakeOptions =
        dictInsert sGccClang.extraCmakeOptions "CMAKE_CXX_LINK_FLAGS"
          ("-Wl,-rpath," ++ pathJoin (dirname "/usr/bin/gcc-7") ".." ++ "/lib64 -L"
            ++ pathJoin (dirname "/usr/bin/gcc-7") ".." ++ "/lib64") :=
  c7_init_gcc_7 wGccClang sGccClang "/usr/bin/gcc-7" (by decide)

/-- C6: selecting Clang 6.0 with a resolvable companion gcc derives
`clang-6.0`/`clang++-6.0`, points `ASAN_SYMBOLIZER_PATH` into the
directory of the resolved clang executable, and appends (never
overwrites) the `--gcc-toolchain=` flag rendered with the companion
toolchain root to both CFLAGS and CXXFLAGS. -/
theorem c6_init_clang_6 (w : World) (s : BuildEnv) (g gexe cexe : String)
    (hg : w.defaultGccForLibstdcxx = some g) (hgne : ¬ g = "")
    (hfindg : w.findExecutable g = some gexe)
    (hfindc : w.findExecutable "clang-6.0" = some cexe) :
    (s.init_clang w "6.0").2 = none
    ∧ (s.init_clang w "6.0").1.cCompiler = some "clang-6.0"
    ∧ (s.init_clang w "6.0").1.cxxCompiler = some "clang++-6.0"
    ∧ envGet (s.init_clang w "6.0").1.envVars "ASAN_SYMBOLIZER_PATH"
        = some (pathJoin (dirname cexe) "llvm-symbolizer")
    ∧ envGet (s.init_clang w "6.0").1.envVars "CFLAGS"
        = some (appendFlagValue (envGet s.envVars "CFLAGS")
            ("--gcc-toolchain=" ++ pathJoin (dirname gexe) ".."))
    ∧ envGet (s.init_clang w "6.0").1.envVars "CXXFLAGS"
        = some (appendFlagValue (envGet s.envVars "CXXFLAGS")
            ("--gcc-toolchain=" ++ pathJoin (dirname gexe) ".."))  := by
  unfold BuildEnv.init_clang BuildEnv.manage_stdlib_from_gcc BuildEnv.clang_symbolizer_tail
  simp [pyStr?, hg, hgne, hfindg, hfindc, BuildEnv.set_env_var, append_cCompiler,
    append_cxxCompiler, append_to_env_var_envVars, envGet_dictInsert]

/-- Closed instance of C6's theorem on the `wClangCompanion` node, where
the companion gcc-8 resolves under `/opt/gcc-8` and CFLAGS already holds
`-O2` that the new flag is appended after. -/
theorem c6_witness :
    (sClangCompanion.init_clang wClangCompanion "6.0").2 = none
    ∧ (sClangCompanion.init_clang wClangCompanion "6.0").1.cCompiler = some "clang-6.0"
    ∧ (sClangCompanion.init_clang wClangCompanion "6.0").1.cxxCompiler = some "clang++-6.0"
    ∧ envGet (sClangCompanion.init_clang wClangCompanion "6.0").1.envVars "ASAN_SYMBOLIZER_PATH"
        = some (pathJoin (dirname "/usr/local/bin/clang-6.0") "llvm-symbolizer")
    ∧ envGet (sClangCompanion.init_clang wClangCompanion "6.0").1.envVars "CFLAGS"
        = some (appendFlagValue (envGet sClangCompanion.envVars "CFLAGS")
            ("--gcc-toolchain=" ++ pathJoin (dirname "/opt/gcc-8/bin/gcc-8") ".."))
    ∧ envGet (sClangCompanion.init_clang wClangCompanion "6.0").1.envVars "CXXFLAGS"
        = some (appendFlagValue (envGet sClangCompanion.envVars "CXXFLAGS")
            ("--gcc-toolchain=" ++ pathJoin (dirname "/opt/gcc-8/bin/gcc-8") ".."))  :=
  c6_init_clang_6 wClangCompanion sClangCompanion "gcc-8" "/opt/gcc-8/bin/gcc-8"
    "/usr/local/bin/clang-6.0" (by decide) (by decide) (by decide) (by decide)

/-! ## Field effects of each compiler-selection handler -/

theorem init_gcc_fields (w : World) (s : BuildEnv) (v : String) :
    (s.init_gcc w v).1.compiler = some Compiler.gcc
    ∧ (s.init_gcc w v).1.compilerVersion = some v
    ∧ (s.init_gcc w v).1.cCompiler = some ("gcc-" ++ v)
    ∧ (s.init_gcc w v).1.cxxCompiler = some ("g++-" ++ v)
    ∧ (s.init_gcc w v).1.gcovCommand = some ("gcov-" ++ v) := by
  simp only [BuildEnv.init_gcc]
  have hf := manage_stdlib_fields w
      { s with
          compiler := some Compiler.gcc
          compilerVersion := some v
          cCompiler := some ("gcc-" ++ v)
          cxxCompiler := some ("g++-" ++ v)
          gcovCommand := some ("gcov-" ++ v) } none
  exact ⟨hf.2.1.trans rfl, hf.2.2.1.trans rfl, hf.2.2.2.1.trans rfl,
    hf.2.2.2.2.1.trans rfl, hf.2.2.2.2.2.trans rfl⟩

theorem clang_symbolizer_tail_fields (w : World) (x : BuildEnv) :
    (x.clang_symbolizer_tail w).1.compiler = x.compiler
    ∧ (x.clang_symbolizer_tail w).1.compilerVersion = x.compilerVersion
    ∧ (x.clang_symbolizer_tail w).1.cCompiler = x.cCompiler
    ∧ (x.clang_symbolizer_tail w).1.cxxCompiler = x.cxxCompiler
    ∧ (x.clang_symbolizer_tail w).1.gcovCommand = x.gcovCommand := by
  unfold BuildEnv.clang_symbolizer_tail
  cases hc : x.cCompiler with
  | none => exact ⟨rfl, rfl, hc, rfl, rfl⟩
  | some c =>
    dsimp only
    cases hf : w.findExecutable c with
    | none => exact ⟨rfl, rfl, hc, rfl, rfl⟩
    | some exe => exact ⟨rfl, rfl, hc, rfl, rfl⟩

theorem init_clang_fields (w : World) (s : BuildEnv) (v : String) :
    (s.init_clang w v).1.compiler = some Compiler.clang
    ∧ (s.init_clang w v).1.compilerVersion = some v
    ∧ (s.init_clang w v).1.cCompiler = some ("clang-" ++ v)
    ∧ (s.init_clang w v).1.cxxCompiler = some ("clang++-" ++ v)
    ∧ (s.init_clang w v).1.gcovCommand = s.gcovCommand := by
  simp only [BuildEnv.init_clang]
  rcases hm : BuildEnv.manage_stdlib_from_gcc w
      { s with
          compiler := some Compiler.clang
          compilerVersion := some v
          cCompiler := some ("clang-" ++ v)
          cxxCompiler := some ("clang++-" ++ v) }
      (some (fun gcctoolchain => "--gcc-toolchain=" ++ gcctoolchain)) with ⟨s2, e2⟩
  have hf := manage_stdlib_fields w
      { s with
          compiler := some Compiler.clang
          compilerVersion := some v
          cCompiler := some ("clang-" ++ v)
          cxxCompiler := some ("clang++-" ++ v) }
      (some (fun gcctoolchain => "--gcc-toolchain=" ++ gcctoolchain))
  rw [hm] at hf
  cases e2 with
  | some e =>
    exact ⟨hf.2.1.trans rfl, hf.2.2.1.trans rfl, hf.2.2.2.1.trans rfl,
      hf.2.2.2.2.1.trans rfl, hf.2.2.2.2.2.trans rfl⟩
  | none =>
    have ht := clang_symbolizer_tail_fields w s2
    exact ⟨ht.1.trans (hf.2.1.trans rfl), ht.2.1.trans (hf.2.2.1.trans rfl),
      ht.2.2.1.trans (hf.2.2.2.1.trans rfl), ht.2.2.2.1.trans (hf.2.2.2.2.1.trans rfl),
      ht.2.2.2.2.trans (hf.2.2.2.2.2.trans rfl)⟩

theorem init_msvc_fields (s : BuildEnv) (v : String) :
    (s.init_msvc v).1.compiler = some Compiler.msvc
    ∧ (s.init_msvc v).1.compilerVersion = some v
    ∧ (s.init_msvc v).1.cCompiler = s.cCompiler
    ∧ (s.init_msvc v).1.cxxCompiler = s.cxxCompiler
    ∧ (s.init_msvc v).1.gcovCommand = s.gcovCommand := by
  unfold BuildEnv.init_msvc
  split_ifs <;> exact ⟨rfl, rfl, rfl, rfl, rfl⟩

theorem icc_linux_tail_fields (w : World) (x : BuildEnv) (v : String) :
    (x.icc_linux_tail w v).1.compiler = x.compiler
    ∧ (x.icc_linux_tail w v).1.cCompiler = x.cCompiler
    ∧ (x.icc_linux_tail w v).1.cxxCompiler = x.cxxCompiler
    ∧ (x.icc_linux_tail w v).1.gcovCommand = x.gcovCommand
    ∧ ((x.icc_linux_tail w v).2 = none → (x.icc_linux_tail w v).1.compilerVersion = some v) := by
  unfold BuildEnv.icc_linux_tail
  rcases hm : BuildEnv.manage_stdlib_from_gcc w x
      (some (fun gcctoolchain => "-gcc-name=" ++ gcctoolchain ++ "/bin/gcc")) with ⟨s2, e2⟩
  have hf := manage_stdlib_fields w x
      (some (fun gcctoolchain => "-gcc-name=" ++ gcctoolchain ++ "/bin/gcc"))
  rw [hm] at hf
  cases e2 with
  | some e =>
    exact ⟨hf.2.1, hf.2.2.2.1, hf.2.2.2.2.1, hf.2.2.2.2.2,
      fun h => absurd h (by simp)⟩
  | none =>
    exact ⟨hf.2.1, hf.2.2.2.1, hf.2.2.2.2.1, hf.2.2.2.2.2, fun _ => rfl⟩

theorem init_icc_nonwindows_fields (w : World) (s : BuildEnv) (v : String)
    (hsys : ¬ s.system = some System.windows) :
    (s.init_icc w v).1.compiler = some Compiler.intel
    ∧ (s.init_icc w v).1.cCompiler = some "icc"
    ∧ (s.init_icc w v).1.cxxCompiler = some "icpc"
    ∧ (s.init_icc w v).1.gcovCommand = s.gcovCommand
    ∧ ((s.init_icc w v).2 = none → (s.init_icc w v).1.compilerVersion = some v) := by
  simp only [BuildEnv.init_icc]
  rw [if_neg hsys]
  split_ifs <;>
    first
    | exact ⟨(icc_linux_tail_fields w _ v).1.trans rfl,
        (icc_linux_tail_fields w _ v).2.1.trans rfl,
        (icc_linux_tail_fields w _ v).2.2.1.trans rfl,
        (icc_linux_tail_fields w _ v).2.2.2.1.trans rfl,
        (icc_linux_tail_fields w _ v).2.2.2.2⟩
    | exact ⟨rfl, rfl, rfl, rfl, fun h => absurd h (by simp)⟩

theorem init_icc_windows_requires_msvc (w : World) (s : BuildEnv) (v : String)
    (hsys : s.system = some System.windows) (hc : s.compiler ≠ some Compiler.msvc) :
    s.init_icc w v =
      (s, some (.configurationError "need to specify msvc version for icc on Windows")) := by
  simp only [BuildEnv.init_icc]
  rw [if_pos hsys, if_pos hc]

theorem init_icc_success_fields (w : World) (s : BuildEnv) (v : String)
    (hok : (s.init_icc w v).2 = none) :
    (s.init_icc w v).1.compiler = some Compiler.intel
    ∧ (s.init_icc w v).1.compilerVersion = some v := by
  by_cases hsys : s.system = some System.windows
  · by_cases hc : s.compiler = some Compiler.msvc
    · simp only [BuildEnv.init_icc] at hok ⊢
      rw [if_pos hsys, if_neg (fun hne => hne hc)] at hok ⊢
      cases hcv : s.compilerVersion with
      | none =>
        rw [hcv] at hok
        simp at hok
      | some mv =>
        rw [hcv] at hok
        dsimp only at hok ⊢
        split_ifs at hok ⊢ <;>
          first
          | exact ⟨rfl, rfl⟩
          | simp at hok
    · have := init_icc_windows_requires_msvc w s v hsys hc
      rw [this] at hok
      exact absurd hok (by simp)
  · obtain ⟨h1, _, _, _, h5⟩ := init_icc_nonwindows_fields w s v hsys
    exact ⟨h1, h5 hok⟩

theorem buildEnvironmentInit_compiler_none (w : World) (sys : Option System) :
    (buildEnvironmentInit w sys).compiler = none
    ∧ (buildEnvironmentInit w sys).compilerVersion = none := by
  unfold buildEnvironmentInit BuildEnv.init_system BuildEnv.prepend_path_env
    BuildEnv.prepend_to_env_var BuildEnv.set_env_var
  cases pyStr? w.environmentSubshell <;> cases sys <;> try exact ⟨rfl, rfl⟩
  all_goals rename_i s
  all_goals cases s <;> exact ⟨rfl, rfl⟩

/-! ## Claims about the compiler-selection handlers -/

/-- C3 (amended): on a non-Windows system, `_init_icc` accepts every
two-digit version generically — including "99", which maps to the 2099
vendor script — so a two-digit string never raises; `ConfigurationError`
is raised exactly for a version that neither matches the two-digit
pattern nor equals one of the legacy versions 16.0/15.0/14.0/13.0/12.1,
for example "999". -/
theorem c3_icc_unknown_version_error (w : World) (s : BuildEnv) (v : String)
    (hsys : ¬ s.system = some System.windows)
    (h2 : isTwoDigits v = false) (h16 : ¬ v = "16.0") (h15 : ¬ v = "15.0")
    (h14 : ¬ v = "14.0") (h13 : ¬ v = "13.0") (h12 : ¬ v = "12.1") :
    (s.init_icc w v).2 = some (PyErr.configurationError
      ("invalid icc version: got icc-" ++ v
        ++ ". Try a version with two digits, e.g. 18 for 2018 release.")) := by
  simp only [BuildEnv.init_icc]
  rw [if_neg hsys, if_neg (by simp [h2]), if_neg (by simp [h16]), if_neg (by simp [h15]),
    if_neg (by simp [h14]), if_neg (by simp [h13]), if_neg (by simp [h12])]

/-- Counterexample to C3 as stated: version "99" is a two-digit string
the spec calls "not in any known version mapping", yet `_init_icc` on
Linux raises nothing — it accepts it and sources the 2099 vendor
script. -/
theorem c3_counterexample :
    (sNoCompanion.init_icc wNoCompanion "99").2 = none
    ∧ (sNoCompanion.init_icc wNoCompanion "99").1.compilerVersion = some "99"
    ∧ (sNoCompanion.init_icc wNoCompanion "99").1.envScripts =
        [". /opt/intel/compilers_and_libraries_2099/linux/bin/compilervars.sh intel64 && cmake -E environment"] := by
  decide

/-- Closed instance of C3's amended theorem at version "999" on the
Linux `wNoCompanion` node. -/
theorem c3_witness :
    (sNoCompanion.init_icc wNoCompanion "999").2 = some (PyErr.configurationError
      ("invalid icc version: got icc-" ++ "999"
        ++ ". Try a version with two digits, e.g. 18 for 2018 release.")) :=
  c3_icc_unknown_version_error wNoCompanion sNoCompanion "999" (by decide) (by decide)
    (by decide) (by decide) (by decide) (by decide) (by decide)

/-- C4 (amended): invoking a second compiler-selection handler either
rejects with ConfigurationError (Intel on Windows without a prior MSVC
selection, leaving the state unchanged) or overwrites compiler,
compiler_version and every executable-name field the second family
derives; derived fields the second family does not define keep the first
family's values — gcov_command persists unless the second family is GCC,
and c_compiler/cxx_compiler persist when the second family is MSVC. -/
theorem c4_second_handler_overwrite :
    (∀ (w : World) (s : BuildEnv) (v : String),
      (s.init_gcc w v).1.compiler = some Compiler.gcc
      ∧ (s.init_gcc w v).1.compilerVersion = some v
      ∧ (s.init_gcc w v).1.cCompiler = some ("gcc-" ++ v)
      ∧ (s.init_gcc w v).1.cxxCompiler = some ("g++-" ++ v)
      ∧ (s.init_gcc w v).1.gcovCommand = some ("gcov-" ++ v))
    ∧ (∀ (w : World) (s : BuildEnv) (v : String),
      (s.init_clang w v).1.compiler = some Compiler.clang
      ∧ (s.init_clang w v).1.compilerVersion = some v
      ∧ (s.init_clang w v).1.cCompiler = some ("clang-" ++ v)
      ∧ (s.init_clang w v).1.cxxCompiler = some ("clang++-" ++ v)
      ∧ (s.init_clang w v).1.gcovCommand = s.gcovCommand)
    ∧ (∀ (s : BuildEnv) (v : String),
      (s.init_msvc v).1.compiler = some Compiler.msvc
      ∧ (s.init_msvc v).1.compilerVersion = some v
      ∧ (s.init_msvc v).1.cCompiler = s.cCompiler
      ∧ (s.init_msvc v).1.cxxCompiler = s.cxxCompiler
      ∧ (s.init_msvc v).1.gcovCommand = s.gcovCommand)
    ∧ (∀ (w : World) (s : BuildEnv) (v : String), ¬ s.system = some System.windows →
      (s.init_icc w v).1.compiler = some Compiler.intel
      ∧ (s.init_icc w v).1.cCompiler = some "icc"
      ∧ (s.init_icc w v).1.cxxCompiler = some "icpc"
      ∧ (s.init_icc w v).1.gcovCommand = s.gcovCommand)
    ∧ (∀ (w : World) (s : BuildEnv) (v : String),
      s.system = some System.windows → s.compiler ≠ some Compiler.msvc →
      s.init_icc w v =
        (s, some (.configurationError "need to specify msvc version for icc on Windows"))) := by
  refine ⟨init_gcc_fields, init_clang_fields, init_msvc_fields, ?_, init_icc_windows_requires_msvc⟩
  intro w s v hsys
  obtain ⟨h1, h2, h3, h4, _⟩ := init_icc_nonwindows_fields w s v hsys
  exact ⟨h1, h2, h3, h4⟩

/-- Counterexample to C4 as stated: on Linux, `_init_gcc "7"` followed by
`_init_clang "6.0"` neither raises nor fully overwrites — the second call
succeeds and the configuration still carries the first family's derived
`gcov_command` value `gcov-7` while the compiler family is Clang. -/
theorem c4_counterexample :
    ((sGccClang.init_gcc wGccClang "7").1.init_clang wGccClang "6.0").2 = none
    ∧ ((sGccClang.init_gcc wGccClang "7").1.init_clang wGccClang "6.0").1.compiler
        = some Compiler.clang
    ∧ ((sGccClang.init_gcc wGccClang "7").1.init_clang wGccClang "6.0").1.gcovCommand
        = some "gcov-7" := by
  decide

/-- Closed instance of C4's amended theorem: the rejecting path, Intel
requested on a Windows configuration with no MSVC selected. -/
theorem c4_witness :
    (buildEnvironmentInit wNoCompanion (some System.windows)).init_icc wNoCompanion "18" =
      (buildEnvironmentInit wNoCompanion (some System.windows),
        some (.configurationError "need to specify msvc version for icc on Windows")) :=
  c4_second_handler_overwrite.2.2.2.2 wNoCompanion
    (buildEnvironmentInit wNoCompanion (some System.windows)) "18" (by decide) (by decide)

/-- C5 (amended): after construction both compiler and compiler_version
are absent; after every `_init_gcc`/`_init_clang`/`_init_msvc` call (even
one that ends in an error) and after every `_init_icc` call that returns
normally, both are present — so the claimed iff holds there; an
`_init_icc` call that raises is excluded, because it can leave the
compiler family set with no version recorded. -/
theorem c5_compiler_version_invariant :
    (∀ (w : World) (sys : Option System),
      (buildEnvironmentInit w sys).compiler = none
      ∧ (buildEnvironmentInit w sys).compilerVersion = none)
    ∧ (∀ (w : World) (s : BuildEnv) (v : String),
      (s.init_gcc w v).1.compiler = some Compiler.gcc
      ∧ (s.init_gcc w v).1.compilerVersion = some v)
    ∧ (∀ (w : World) (s : BuildEnv) (v : String),
      (s.init_clang w v).1.compiler = some Compiler.clang
      ∧ (s.init_clang w v).1.compilerVersion = some v)
    ∧ (∀ (s : BuildEnv) (v : String),
      (s.init_msvc v).1.compiler = some Compiler.msvc
      ∧ (s.init_msvc v).1.compilerVersion = some v)
    ∧ (∀ (w : World) (s : BuildEnv) (v : String), (s.init_icc w v).2 = none →
      (s.init_icc w v).1.compiler = some Compiler.intel
      ∧ (s.init_icc w v).1.compilerVersion = some v) := by
  refine ⟨buildEnvironmentInit_compiler_none, ?_, ?_, ?_, init_icc_success_fields⟩
  · intro w s v
    exact ⟨(init_gcc_fields w s v).1, (init_gcc_fields w s v).2.1⟩
  · intro w s v
    exact ⟨(init_clang_fields w s v).1, (init_clang_fields w s v).2.1⟩
  · intro s v
    exact ⟨(init_msvc_fields s v).1, (init_msvc_fields s v).2.1⟩

/-- Counterexample to C5 as stated: `_init_icc` with unknown version
"999" on a fresh Linux configuration raises ConfigurationError after
having already set the compiler family, leaving compiler present and
compiler_version absent — the iff fails right after an error-terminated
handler call. -/
theorem c5_counterexample :
    (sNoCompanion.init_icc wNoCompanion "999").2 =
      some (PyErr.configurationError
        "invalid icc version: got icc-999. Try a version with two digits, e.g. 18 for 2018 release.")
    ∧ (sNoCompanion.init_icc wNoCompanion "999").1.compiler = some Compiler.intel
    ∧ (sNoCompanion.init_icc wNoCompanion "999").1.compilerVersion = none := by
  decide

/-- Closed instance of C5's amended theorem: a successful `_init_icc`
call records both family and version. -/
theorem c5_witness :
    (sNoCompanion.init_icc wNoCompanion "18").1.compiler = some Compiler.intel
    ∧ (sNoCompanion.init_icc wNoCompanion "18").1.compilerVersion = some "18" :=
  c5_compiler_version_invariant.2.2.2.2 wNoCompanion sNoCompanion "18" (by decide)

/-! ## Malformed versions (C8) -/

theorem parseComponents_error_shape : ∀ (l : List (List Char)) (e : PyErr),
    parseComponents l = .error e → ∃ c, e = PyErr.malformedVersion c
  | [], e, h => by simp [parseComponents] at h
  | c :: cs, e, h => by
    simp only [parseComponents] at h
    cases hp : pyIntOfChars c with
    | none =>
      rw [hp] at h
      simp only [Except.error.injEq] at h
      exact ⟨String.mk c, h.symm⟩
    | some n =>
      rw [hp] at h
      cases hr : parseComponents cs with
      | error e2 =>
        rw [hr] at h
        simp only [Except.error.injEq] at h
        exact h ▸ parseComponents_error_shape cs e2 hr
      | ok ns =>
        rw [hr] at h
        exact absurd h (by simp)

theorem to_version_tuple_error_shape {v : String} {e : PyErr}
    (h : to_version_tuple v = .error e) : ∃ c, e = PyErr.malformedVersion c :=
  parseComponents_error_shape (splitChars '.' v.data) e h

/-- C8 (amended): a version string with a non-numeric dot-separated
component makes parsing fail with the int ValueError (the spec's
MalformedVersion), and `_set_cmake_minimum_version` — which parses the
requested minimum while comparing it against the current cmake version —
propagates exactly that parsing error: no handler converts it into a
ConfigurationError. -/
theorem c8_malformed_version_propagates (w : World) (s : BuildEnv) (v : String)
    (t : List Int) (e : PyErr)
    (hrec : optStrTruthy s.cmakeVersion = false) (hne : ¬ v = "")
    (hcur : to_version_tuple w.cmakeVersionReport = .ok t)
    (hv : to_version_tuple v = .error e) :
    (s.set_cmake_minimum_version w v).2 = some e
    ∧ ∃ c, e = PyErr.malformedVersion c := by
  constructor
  · simp only [BuildEnv.set_cmake_minimum_version]
    rw [if_neg (by simp [hrec, hne])]
    have hio : is_older_version w.cmakeVersionReport v = .error e := by
      unfold is_older_version
      rw [hcur, hv]
    rw [hio]
  · exact to_version_tuple_error_shape hv

/-- Counterexample to C8 as stated: requesting the malformed minimum
"3x" on a fresh Linux configuration surfaces the raw parsing error
(ValueError / MalformedVersion, carried through unchanged), not a
ConfigurationError — `PyErr.isConfigurationError` classifies the
surfaced error as false. -/
theorem c8_counterexample :
    (s0.set_cmake_minimum_version w0 "3x").2 = some (PyErr.malformedVersion "3x")
    ∧ ((s0.set_cmake_minimum_version w0 "3x").2.map PyErr.isConfigurationError) = some false := by
  decide

/-- Closed instance of C8's amended theorem at the malformed minimum
"x.y" on the `wNoCompanion` node, whose cmake reports "3.5". -/
theorem c8_witness :
    (sNoCompanion.set_cmake_minimum_version wNoCompanion "x.y").2 =
      some (PyErr.malformedVersion "x") :=
  (c8_malformed_version_propagates wNoCompanion sNoCompanion "x.y" [3, 5]
    (PyErr.malformedVersion "x") (by decide) (by decide) (by decide) (by decide)).1

/-! ## CMake minimum-version selection (C1) -/

theorem mem_insertKeyed {x y : List Int × String} :
    ∀ (l : List (List Int × String)), y ∈ insertKeyed x l → y = x ∨ y ∈ l
  | [], h => by simpa [insertKeyed] using h
  | z :: zs, h => by
    unfold insertKeyed at h
    by_cases hc : pyListLt x.1 z.1 = true
    · rw [if_pos hc] at h
      rcases List.mem_cons.mp h with h1 | h1
      · exact Or.inl h1
      · exact Or.inr h1
    · rw [if_neg hc] at h
      rcases List.mem_cons.mp h with h1 | h1
      · exact Or.inr (h1 ▸ List.mem_cons_self z zs)
      · rcases mem_insertKeyed zs h1 with h2 | h2
        · exact Or.inl h2
        · exact Or.inr (List.mem_cons_of_mem z h2)

theorem mem_sortKeyed_aux : ∀ (l acc : List (List Int × String)) (y : List Int × String),
    y ∈ l.foldl (fun acc x => insertKeyed x acc) acc → y ∈ acc ∨ y ∈ l
  | [], _, _, h => Or.inl h
  | x :: xs, acc, y, h => by
    simp only [List.foldl_cons] at h
    rcases mem_sortKeyed_aux xs (insertKeyed x acc) y h with h1 | h1
    · rcases mem_insertKeyed acc h1 with h2 | h2
      · exact Or.inr (h2 ▸ List.mem_cons_self x xs)
      · exact Or.inl h2
    · exact Or.inr (List.mem_cons_of_mem x h1)

theorem mem_sortKeyed {y : List Int × String} {l : List (List Int × String)}
    (h : y ∈ sortKeyed l) : y ∈ l := by
  rcases mem_sortKeyed_aux l [] y h with h1 | h1
  · cases h1
  · exact h1

theorem computeKeys_mem : ∀ (vs : List String) (keyed : List (List Int × String)),
    computeKeys vs = .ok keyed → ∀ kv ∈ keyed, to_version_tuple kv.2 = .ok kv.1
  | [], keyed, h, kv, hm => by
    simp only [computeKeys, Except.ok.injEq] at h
    subst h
    cases hm
  | v :: vs, keyed, h, kv, hm => by
    simp only [computeKeys] at h
    cases ht : to_version_tuple v with
    | error e => rw [ht] at h; exact absurd h (by simp)
    | ok t =>
      rw [ht] at h
      cases hr : computeKeys vs with
      | error e => rw [hr] at h; exact absurd h (by simp)
      | ok rest =>
        rw [hr] at h
        simp only [Except.ok.injEq] at h
        subst h
        rcases List.mem_cons.mp hm with h1 | h1
        · subst h1; exact ht
        · exact computeKeys_mem vs rest hr kv h1

theorem sortVersions_mem {vs out : List String} (h : sortVersions vs = .ok out) :
    ∀ x ∈ out, ∃ t, to_version_tuple x = .ok t := by
  unfold sortVersions at h
  cases hk : computeKeys vs with
  | error e => rw [hk] at h; exact absurd h (by simp)
  | ok keyed =>
    rw [hk] at h
    simp only [Except.ok.injEq] at h
    subst h
    intro x hx
    simp only [List.mem_map] at hx
    obtain ⟨kv, hkv, rfl⟩ := hx
    exact ⟨kv.1, computeKeys_mem vs keyed hk kv (mem_sortKeyed hkv)⟩

theorem get_available_mem {w : World} {s : BuildEnv} {avail : List String}
    (h : s.get_available_cmake_versions w = .ok avail) :
    ∀ x ∈ avail, ∃ t, to_version_tuple x = .ok t := by
  unfold BuildEnv.get_available_cmake_versions at h
  cases hb : s.cmakeBaseDir with
  | none => rw [hb] at h; exact absurd h (by simp)
  | some base =>
    rw [hb] at h
    exact sortVersions_mem h

theorem init_cmake_base {w : World} {s : BuildEnv} {v base : String}
    (hb : s.cmakeBaseDir = some base) :
    ((s.init_cmake w v).1.cmakeBaseDir = some base)
    ∧ ((s.init_cmake w v).2 = none) := by
  unfold BuildEnv.init_cmake
  rw [hb]
  exact ⟨rfl, rfl⟩

theorem init_cmake_collapse {w : World} {s : BuildEnv} (a b base : String)
    (hb : s.cmakeBaseDir = some base) :
    ((s.init_cmake w a).1).init_cmake w b = s.init_cmake w b := by
  simp only [BuildEnv.init_cmake, hb]

theorem cmake_scan_foldl (w : World) (version : String) :
    ∀ (ts : List String) (s : BuildEnv) (base : String),
      s.cmakeBaseDir = some base →
      (∀ t ∈ ts, ∃ r, is_older_version t version = .ok r) →
      ts.foldl (cmakeScanStep w version) (s, none) =
        ((match (ts.filter (fun t => is_older_version t version == .ok false)).getLast? with
          | none => s
          | some best => (s.init_cmake w best).1), none)
  | [], s, base, hb, hall => rfl
  | t :: ts, s, base, hb, hall => by
    obtain ⟨r, hr⟩ := hall t (List.mem_cons_self t ts)
    have htail : ∀ x ∈ ts, ∃ r2, is_older_version x version = .ok r2 :=
      fun x hx => hall x (List.mem_cons_of_mem t hx)
    simp only [List.foldl_cons, List.filter_cons]
    cases r with
    | true =>
      have hstep : cmakeScanStep w version (s, none) t = (s, none) := by
        unfold cmakeScanStep; dsimp only; rw [hr]
      have hcond : (is_older_version t version == Except.ok false) = false := by
        rw [hr]; rfl
      rw [hstep, hcond, if_neg Bool.false_ne_true]
      exact cmake_scan_foldl w version ts s base hb htail
    | false =>
      have hstep : cmakeScanStep w version (s, none) t = s.init_cmake w t := by
        unfold cmakeScanStep; dsimp only; rw [hr]
      have hcond : (is_older_version t version == Except.ok false) = true := by
        rw [hr]; rfl
      have h2 : (s.init_cmake w t).2 = none := (init_cmake_base (w := w) (v := t) hb).2
      have heq : s.init_cmake w t = ((s.init_cmake w t).1, (none : Option PyErr)) := by
        rcases hic : s.init_cmake w t with ⟨s2, e2⟩
        have h3 : e2 = none := by rw [hic] at h2; exact h2
        rw [h3]
      have hb2 : (s.init_cmake w t).1.cmakeBaseDir = some base :=
        (init_cmake_base (w := w) (v := t) hb).1
      rw [hstep, heq, if_pos hcond,
        cmake_scan_foldl w version ts ((s.init_cmake w t).1) base hb2 htail]
      cases hfl : (ts.filter (fun x => is_older_version x version == Except.ok false)).getLast? with
      | none =>
        have hnil : ts.filter (fun x => is_older_version x version == Except.ok false) = [] :=
          List.getLast?_eq_none_iff.mp hfl
        rw [hnil]
        simp
      | some best =>
        have hne : ts.filter (fun x => is_older_version x version == Except.ok false) ≠ [] := by
          intro hcon
          rw [hcon] at hfl
          exact absurd hfl (by simp)
        cases hfc : ts.filter (fun x => is_older_version x version == Except.ok false) with
        | nil => exact absurd hfc hne
        | cons y ys =>
          rw [hfc] at hfl
          rw [List.getLast?_cons_cons, hfl]
          dsimp only
          rw [init_cmake_collapse t best base hb]

/-- C1 (amended): `_set_cmake_minimum_version` changes nothing when a
CMake version is already recorded or none is requested; otherwise it
records the active binary's reported version, stops if that is not older
than the request, and else walks the available installations in ascending
version order activating every one that is not older than the request —
so the configuration ends on the last such installation (the newest
satisfying one), not the first. -/
theorem c1_set_cmake_minimum_version (w : World) (s : BuildEnv) (version : String) :
    (optStrTruthy s.cmakeVersion = true ∨ version = "" →
      s.set_cmake_minimum_version w version = (s, none))
    ∧ (∀ (base : String) (t tv : List Int),
        optStrTruthy s.cmakeVersion = false → ¬ version = "" →
        s.cmakeBaseDir = some base →
        to_version_tuple w.cmakeVersionReport = .ok t →
        to_version_tuple version = .ok tv →
        (pyListLt t tv = false →
          s.set_cmake_minimum_version w version =
            ({ s with cmakeVersion := some w.cmakeVersionReport }, none))
        ∧ (∀ (avail : List String), pyListLt t tv = true →
            BuildEnv.get_available_cmake_versions w
              { s with cmakeVersion := some w.cmakeVersionReport } = .ok avail →
            s.set_cmake_minimum_version w version =
              ((match (avail.filter
                  (fun x => is_older_version x version == Except.ok false)).getLast? with
                | none => { s with cmakeVersion := some w.cmakeVersionReport }
                | some best =>
                  (({ s with cmakeVersion := some w.cmakeVersionReport }).init_cmake w best).1),
                none))) := by
  constructor
  · intro h
    rcases h with h | h
    · simp [BuildEnv.set_cmake_minimum_version, h]
    · subst h
      simp [BuildEnv.set_cmake_minimum_version]
  · intro base t tv hrec hne hb hcur hv
    have hio := is_older_version_ok w.cmakeVersionReport version t tv hcur hv
    constructor
    · intro hfalse
      rw [hfalse] at hio
      simp only [BuildEnv.set_cmake_minimum_version]
      rw [if_neg (by simp [hrec, hne]), hio]
    · intro avail htrue havail
      rw [htrue] at hio
      simp only [BuildEnv.set_cmake_minimum_version]
      rw [if_neg (by simp [hrec, hne]), hio, havail]
      have hall : ∀ x ∈ avail, ∃ r, is_older_version x version = .ok r := by
        intro x hx
        obtain ⟨tx, htx⟩ := get_available_mem havail x hx
        exact ⟨pyListLt tx tv, is_older_version_ok x version tx tv htx hv⟩
      exact cmake_scan_foldl w version avail
        { s with cmakeVersion := some w.cmakeVersionReport } base hb hall

/-- Counterexample to C1 as stated: requesting minimum "3.10" with the
active cmake at "3.5" and installations 3.11 and 3.12 available must,
per the claim, activate the first not-older one in ascending order —
3.11 — but the loop has no break and the last activation wins, leaving
3.12 active. -/
theorem c1_counterexample :
    (s0.get_available_cmake_versions w0 = .ok ["3.11", "3.12"])
    ∧ is_older_version "3.11" "3.10" = .ok false
    ∧ (s0.set_cmake_minimum_version w0 "3.10").1.cmakeVersion = some "3.12"
    ∧ (s0.set_cmake_minimum_version w0 "3.10").1.cmakeCommand = "/opt/cmake/cmake-3.12/bin/cmake"
    ∧ (s0.set_cmake_minimum_version w0 "3.10").1.ctestCommand = "/opt/cmake/cmake-3.12/bin/ctest"
    ∧ some "3.12" ≠ some "3.11" := by
  decide

/-- Closed instance of C1's amended theorem at the two-installation
Linux node: the scan result is the last (newest) satisfying
installation. -/
theorem c1_witness :
    s0.set_cmake_minimum_version w0 "3.10" =
      ((match ((["3.11", "3.12"].filter
          (fun x => is_older_version x "3.10" == Except.ok false)).getLast?) with
        | none => { s0 with cmakeVersion := some w0.cmakeVersionReport }
        | some best =>
          (({ s0 with cmakeVersion := some w0.cmakeVersionReport }).init_cmake w0 best).1),
        none) :=
  ((c1_set_cmake_minimum_version w0 s0 "3.10").2 "/opt/cmake" [3, 5] [3, 10]
    (by decide) (by decide) (by decide) (by decide) (by decide)).2
    ["3.11", "3.12"] (by decide) (by decide)

/-! ## The executor (C9 and C10) -/

theorem listBeginsWith_length {α : Type} [BEq α] :
    ∀ (a b : List α), listBeginsWith a b = true → b.length ≤ a.length
  | _, [], _ => Nat.zero_le _
  | [], _ :: _, h => by simp [listBeginsWith] at h
  | x :: xs, y :: ys, h => by
    simp only [listBeginsWith, Bool.and_eq_true] at h
    simpa using Nat.succ_le_succ (listBeginsWith_length xs ys h.2)

theorem listBeginsWith_refl {α : Type} [BEq α] [LawfulBEq α] :
    ∀ (l : List α), listBeginsWith l l = true
  | [] => rfl
  | x :: xs => by simp [listBeginsWith, listBeginsWith_refl xs]

theorem underPath_refl (p : List String) : underPath p p = true :=
  listBeginsWith_refl p

theorem pathExists_of_pathIsdir {fs : FileSystem} {p : List String}
    (h : fs.pathIsdir p = true) : fs.pathExists p = true := by
  simp only [FileSystem.pathIsdir, List.any_eq_true, Bool.and_eq_true] at h
  obtain ⟨e, he, h1, h2⟩ := h
  simp only [FileSystem.pathExists, List.any_eq_true]
  exact ⟨e, he, h1⟩

theorem ancestorDirs_mem_length {p a : List String} (h : a ∈ ancestorDirs p) :
    a.length < p.length := by
  unfold ancestorDirs at h
  simp only [List.mem_filter, List.mem_map, List.mem_range] at h
  obtain ⟨⟨n, hn, rfl⟩, hne⟩ := h
  rw [List.length_take]
  omega

theorem underPath_ancestor_false {p a : List String} (h : a ∈ ancestorDirs p) :
    underPath p a = false := by
  cases hu : underPath p a with
  | false => rfl
  | true =>
    have hlen := listBeginsWith_length a p hu
    have := ancestorDirs_mem_length h
    omega

/-- Everything that lies at or below `p` is gone from the filtered
entry list that `rmtree` leaves behind. -/
theorem rmtree_filter_not_exists {fs : FileSystem} {p r : List String}
    (hr : underPath p r = true) :
    FileSystem.pathExists ⟨fs.entries.filter (fun e => !(underPath p e.1))⟩ r = false := by
  rw [Bool.eq_false_iff]
  intro hcon
  simp only [FileSystem.pathExists, List.any_eq_true, List.mem_filter] at hcon
  obtain ⟨e, ⟨hmem, hkeep⟩, hbe⟩ := hcon
  have : e.1 = r := eq_of_beq hbe
  rw [this] at hkeep
  rw [hr] at hkeep
  exact absurd hkeep (by simp)

/-- Entries not below `p` survive the `rmtree` filter, so a directory
ancestor of `p` is still a directory afterwards. -/
theorem rmtree_filter_isdir {fs : FileSystem} {p a : List String}
    (hdir : fs.pathIsdir a = true) (hnu : underPath p a = false) :
    FileSystem.pathIsdir ⟨fs.entries.filter (fun e => !(underPath p e.1))⟩ a = true := by
  simp only [FileSystem.pathIsdir, List.any_eq_true, Bool.and_eq_true] at hdir ⊢
  obtain ⟨e, hmem, hbe, he2⟩ := hdir
  refine ⟨e, List.mem_filter.mpr ⟨hmem, ?_⟩, hbe, he2⟩
  have : e.1 = a := eq_of_beq hbe
  rw [this, hnu]
  rfl

/-- C9: on an existing non-empty directory (witnessed by the prior entry
`q` strictly below `p`), the real executor's `ensure_dir_exists` with
`ensure_empty` removes the directory together with all its prior
contents and recreates the directory, while the dry-run executor leaves
the filesystem entirely untouched. -/
theorem c9_ensure_dir_exists_empty (fs : FileSystem) (p q : List String)
    (hdir : fs.pathIsdir p = true)
    (hanc : ∀ a ∈ ancestorDirs p, fs.pathIsdir a = true)
    (hq : underPath p q = true) (hqne : q ≠ p) (hqex : fs.pathExists q = true) :
    Executor.ensure_dir_exists fs p true =
      .ok ⟨fs.entries.filter (fun e => !(underPath p e.1)) ++ [(p, true)]⟩
    ∧ FileSystem.pathIsdir
        ⟨fs.entries.filter (fun e => !(underPath p e.1)) ++ [(p, true)]⟩ p = true
    ∧ FileSystem.pathExists
        ⟨fs.entries.filter (fun e => !(underPath p e.1)) ++ [(p, true)]⟩ q = false
    ∧ DryRunExecutor.ensure_dir_exists fs p true = fs := by
  refine ⟨?_, ?_, ?_, rfl⟩
  · unfold Executor.ensure_dir_exists
    rw [if_pos rfl, if_pos (pathExists_of_pathIsdir hdir)]
    unfold FileSystem.rmtree
    rw [if_pos hdir]
    unfold FileSystem.makedirs
    dsimp only
    rw [if_neg ?hp1, if_neg ?hp2]
    case hp1 =>
      rw [rmtree_filter_not_exists (underPath_refl p)]
      exact Bool.false_ne_true
    case hp2 =>
      intro hcon
      simp only [List.any_eq_true, Bool.and_eq_true] at hcon
      obtain ⟨a, ha, hex, hnotdir⟩ := hcon
      rw [rmtree_filter_isdir (hanc a ha) (underPath_ancestor_false ha)] at hnotdir
      exact absurd hnotdir (by simp)
    have hmiss : (ancestorDirs p).filter
        (fun a => !(FileSystem.pathExists ⟨fs.entries.filter (fun e => !(underPath p e.1))⟩ a)) = [] := by
      rw [List.filter_eq_nil_iff]
      intro a ha
      have hx := pathExists_of_pathIsdir
        (rmtree_filter_isdir (hanc a ha) (underPath_ancestor_false ha))
      rw [hx]
      simp
    rw [hmiss]
    rfl
  · simp only [FileSystem.pathIsdir, List.any_append, List.any_cons, List.any_nil]
    simp [underPath_refl]
  · simp only [FileSystem.pathExists, List.any_append, List.any_cons, List.any_nil]
    have h1 := @rmtree_filter_not_exists fs p q hq
    simp only [FileSystem.pathExists] at h1
    rw [h1]
    have : (p == q) = false := beq_eq_false_iff_ne.mpr (fun h => hqne h.symm)
    simp [this]

/-- Closed instance of C9's theorem on `fsSample`, whose directory
`/opt/work` contains the file `/opt/work/x.txt`. -/
theorem c9_witness :
    Executor.ensure_dir_exists fsSample ["opt", "work"] true =
      .ok ⟨fsSample.entries.filter (fun e => !(underPath ["opt", "work"] e.1))
        ++ [(["opt", "work"], true)]⟩
    ∧ FileSystem.pathIsdir
        ⟨fsSample.entries.filter (fun e => !(underPath ["opt", "work"] e.1))
          ++ [(["opt", "work"], true)]⟩ ["opt", "work"] = true
    ∧ FileSystem.pathExists
        ⟨fsSample.entries.filter (fun e => !(underPath ["opt", "work"] e.1))
          ++ [(["opt", "work"], true)]⟩ ["opt", "work", "x.txt"] = false
    ∧ DryRunExecutor.ensure_dir_exists fsSample ["opt", "work"] true = fsSample :=
  c9_ensure_dir_exists_empty fsSample ["opt", "work"] ["opt", "work", "x.txt"]
    (by decide) (by decide) (by decide) (by decide) (by decide)

/-- C10: with `ensure_empty=False` the real executor returns immediately
on an existing directory, mutating nothing (so repeated calls are
idempotent); the early return applies only to directories — a path that
exists as a regular file falls through to `os.makedirs`, which raises
because the path exists. -/
theorem c10_ensure_dir_exists_idempotent :
    (∀ (fs : FileSystem) (p : List String), fs.pathIsdir p = true →
      Executor.ensure_dir_exists fs p false = .ok fs)
    ∧ (∀ (fs : FileSystem) (p : List String),
      fs.pathExists p = true → fs.pathIsdir p = false →
      Executor.ensure_dir_exists fs p false = .error PyErr.fileExistsError) := by
  constructor
  · intro fs p h
    unfold Executor.ensure_dir_exists
    simp [h]
  · intro fs p hex hdir
    unfold Executor.ensure_dir_exists FileSystem.makedirs
    simp [hex, hdir]

/-- Closed instance of C10's theorem on `fsSample`: the directory `/opt`
short-circuits unchanged, while the regular file `/opt/notes` makes the
call raise. -/
theorem c10_witness :
    Executor.ensure_dir_exists fsSample ["opt"] false = .ok fsSample
    ∧ Executor.ensure_dir_exists fsSample ["opt", "notes"] false =
        .error PyErr.fileExistsError :=
  ⟨c10_ensure_dir_exists_idempotent.1 fsSample ["opt"] (by decide),
    c10_ensure_dir_exists_idempotent.2 fsSample ["opt", "notes"] (by decide) (by decide)⟩

end Releng
